import Mathlib

/-
Shallow embedding of the osbrain agent messaging kernel
(osbrain/core.py and osbrain/proxy.py), together with proofs about the
behaviour of its registry, event loop, loopback control channel and proxy
routing.  Python dictionaries are embedded as association lists with
replace-on-update semantics, raised exceptions as the `Except` monad, and
the externally supplied pieces (user handlers, the pickle codec, the OS
poller) as explicit function parameters.
-/

set_option autoImplicit false

namespace OsBrain

/-- Raw byte strings on the wire (Python `bytes`), one `Nat` per byte. -/
abbrev Bytes := List Nat

/-- Python exceptions that the embedded code can raise. -/
inductive PyExc where
  | valueError
  | zmqError (errno : Nat)
  | assertionError (msg : String)
  | notImplementedError
  | typeError
  | otherError (name : String)
deriving DecidableEq

/-- Socket communication kinds (`AgentAddressKind` values REQ/REP/PUSH/PULL/PUB/SUB). -/
inductive Kind where
  | REQ | REP | PUSH | PULL | PUB | SUB
deriving DecidableEq

/-- Modelled from the spec: `AgentAddressKind.twin` lives in `osbrain/address.py`,
which is not among the sources; the twin pairs (request/reply, push/pull,
publish/subscribe) are fixed by the spec and by `test_kind` in
tests/test_address.py. -/
def Kind.twin : Kind → Kind
  | .REQ => .REP
  | .REP => .REQ
  | .PUSH => .PULL
  | .PULL => .PUSH
  | .PUB => .SUB
  | .SUB => .PUB

/-- Modelled from the spec: `AgentAddressKind.requires_handler` lives in
`osbrain/address.py`, which is not among the sources.  Its value on every
kind is pinned by `test_kind` in tests/test_address.py, which asserts
`requires_handler()` equals False, True, False, True, False, True for
REQ, REP, PUSH, PULL, PUB, SUB respectively. -/
def Kind.requires_handler : Kind → Bool
  | .REP => true
  | .PULL => true
  | .SUB => true
  | _ => false

/-- Address roles (`AgentAddressRole`): server or client. -/
inductive Role where
  | server | client
deriving DecidableEq

/-- Modelled from the spec: `AgentAddressRole.twin` (osbrain/address.py, absent
from the sources) flips server and client. -/
def Role.twin : Role → Role
  | .server => .client
  | .client => .server

/-- An agent address as used by core.py: `AgentAddress(host, port, kind, role)`. -/
structure AgentAddress where
  host : String
  port : Nat
  kind : Kind
  role : Role
deriving DecidableEq

/-- Modelled from the spec: `AgentAddress.twin` (osbrain/address.py, absent from
the sources) keeps host and port and flips kind and role. -/
def AgentAddress.twin (a : AgentAddress) : AgentAddress :=
  ⟨a.host, a.port, a.kind.twin, a.role.twin⟩

/-- Keys of the agent's `self.socket` and `self.address` dictionaries: they mix
plain strings (aliases and the literal address string of the loopback socket),
`AgentAddress` values, and Python `None` (used as a key by `_connect_old` when
no alias is given). -/
inductive SockKey where
  | str (s : String)
  | addr (a : AgentAddress)
  | pynone
deriving DecidableEq

/-- Dictionary lookup on an association list (Python `d[k]` / `k in d`). -/
def getk {α β : Type} [DecidableEq α] : List (α × β) → α → Option β
  | [], _ => none
  | p :: rest, k => if p.1 = k then some p.2 else getk rest k

/-- Dictionary update on an association list (Python `d[k] = v`): replaces in
place, appends new keys at the end, preserving insertion order. -/
def setk {α β : Type} [DecidableEq α] : List (α × β) → α → β → List (α × β)
  | [], k, v => [(k, v)]
  | p :: rest, k, v => if p.1 = k then (k, v) :: rest else p :: setk rest k v

/-- A user callback: an opaque identifier plus the number of parameters its
signature declares (`len(inspect.signature(handler).parameters)`). -/
structure Callback where
  hid : Nat
  nparams : Nat
deriving DecidableEq

/-- What a caller may pass as the `handler` argument: a single function, a list
of functions, or a dict mapping topic strings to functions (`set_handler`). -/
inductive HandlerArg where
  | fn (c : Callback)
  | lst (cs : List Callback)
  | dct (cs : List (String × Callback))
deriving DecidableEq

/-- Stored form of a socket's handlers (value of `self.handler[socket]`). -/
inductive Handler where
  | single (c : Callback)
  | hlist (cs : List Callback)
  | hdict (cs : List (String × Callback))
deriving DecidableEq

/-- Per-socket bookkeeping: the zmq socket kind, whether `close()` was called,
and the topics subscribed via `setsockopt(zmq.SUBSCRIBE, ...)`. -/
structure SockInfo where
  kind : Kind
  closed : Bool
  subs : List Bytes
deriving DecidableEq

/-- The mutable state of a `BaseAgent`: the dual-keyed socket registry
(`self.socket`), the alias-to-address map (`self.address`), the handler map
(`self.handler`), the poller registration set, the socket store, and the
control flags. -/
structure AgentState where
  socket : List (SockKey × Nat)
  address : List (SockKey × SockKey)
  handler : List (Nat × Handler)
  pollIn : List Nat
  sockets : List (Nat × SockInfo)
  nextSock : Nat
  poll_timeout : Nat
  keep_alive : Bool
  kill_agent : Bool
  running : Bool
  host : String
deriving DecidableEq

/-- `BaseAgent.registered`: membership of a key in `self.socket`. -/
def registered (st : AgentState) (k : SockKey) : Bool :=
  (getk st.socket k).isSome

/-- The `if not alias: alias = address` defaulting in `register` (Python
falsiness: `None` and the empty string both default to the address). -/
def aliasDefault (address : SockKey) (aliasArg : Option SockKey) : SockKey :=
  match aliasArg with
  | none => address
  | some (.str "") => address
  | some (.pynone) => address
  | some k => k

/-- `BaseAgent.set_handler` on our handler arguments.  All embedded callbacks
stand for plain functions, so the isinstance filtering of the Python code
keeps every element. -/
def toHandler : HandlerArg → Handler
  | .fn c => .single c
  | .lst cs => .hlist cs
  | .dct cs => .hdict cs

/-- Store a handler for a socket (`self.handler[socket] = ...`). -/
def set_handler (st : AgentState) (sock : Nat) (h : HandlerArg) : AgentState :=
  { st with handler := setk st.handler sock (toHandler h) }

/-- `BaseAgent.register(socket, address, alias=None, handler=None)`: asserts
that the address is not yet a key of `self.socket` (the alias argument is not
checked), then stores the socket under both the alias and the address, records
the alias-to-address mapping, and, when a handler is given, registers the
socket with the poller and stores the handler. -/
def registerOp (st : AgentState) (sock : Nat) (address : SockKey)
    (aliasArg : Option SockKey) (handler : Option HandlerArg) :
    Except PyExc AgentState :=
  if registered st address then
    .error (.assertionError "Socket is already registered!")
  else
    let aliasKey := aliasDefault address aliasArg
    let st1 := { st with
      socket := setk (setk st.socket aliasKey sock) address sock,
      address := setk st.address aliasKey address }
    match handler with
    | none => .ok st1
    | some h =>
      let st2 := { st1 with
        pollIn := if sock ∈ st1.pollIn then st1.pollIn else st1.pollIn ++ [sock] }
      .ok (set_handler st2 sock h)

/-- The agent state right after `BaseAgent.__init__`: a fresh REP socket (id 0)
bound to the in-process loopback address and registered under the alias
"loopback" with `handle_loopback` (callback id 0, two parameters) as handler. -/
def initAgent (host : String) : AgentState :=
  { socket := [(.str "loopback", 0), (.str "inproc://loopback", 0)]
    address := [(.str "loopback", .str "inproc://loopback")]
    handler := [(0, .single ⟨0, 2⟩)]
    pollIn := [0]
    sockets := [(0, ⟨.REP, false, []⟩)]
    nextSock := 1
    poll_timeout := 1000
    keep_alive := true
    kill_agent := false
    running := false
    host := host }

/-- ASCII check used by `str2bytes` (`message.encode('ascii')` raises unless
every character is ASCII). -/
def asciiStr (s : String) : Bool :=
  s.data.all (fun c => c.toNat < 128)

/-- `BaseAgent.str2bytes` for ASCII strings: the code points of the characters.
For non-ASCII strings the Python code raises; call sites guard with
`asciiStr` where that matters. -/
def str2bytes (s : String) : Bytes :=
  s.data.map Char.toNat

/-- The `if not isinstance(handlers, dict): handlers = {'': handlers}` wrapping
at the top of `BaseAgent.subscribe`.  A `none` value marks a dict value that is
not a function or method (a list wrapped this way), which `set_handler`'s dict
branch silently drops. -/
def wrapTopics : HandlerArg → List (String × Option Callback)
  | .dct cs => cs.map (fun p => (p.1, some p.2))
  | .fn c => [("", some c)]
  | .lst _ => [("", none)]

/-- Record a `setsockopt(zmq.SUBSCRIBE, topic)` call on a socket. -/
def addSub (sockets : List (Nat × SockInfo)) (sid : Nat) (t : Bytes) :
    List (Nat × SockInfo) :=
  sockets.map (fun p =>
    if p.1 = sid then (p.1, ⟨p.2.kind, p.2.closed, p.2.subs ++ [t]⟩) else p)

/-- `BaseAgent.subscribe(alias, handlers)`: wraps a non-dict handler argument
into a single-topic dict, encodes each topic as ASCII (raising on non-ASCII),
subscribes the socket to each topic, then resets the socket's handler to the
dict (whose non-callable values `set_handler` drops). -/
def subscribeOp (st : AgentState) (aliasKey : SockKey) (handlers : HandlerArg) :
    Except PyExc AgentState :=
  match getk st.socket aliasKey with
  | none => .error (.otherError "KeyError")
  | some sock =>
    let topics := wrapTopics handlers
    if topics.any (fun p => !asciiStr p.1) then
      .error (.otherError "UnicodeEncodeError")
    else
      let st1 := { st with
        sockets := topics.foldl
          (fun acc (p : String × Option Callback) => addSub acc sock (str2bytes p.1))
          st.sockets }
      .ok { st1 with
        handler := setk st1.handler sock
          (.hdict (topics.filterMap
            (fun (p : String × Option Callback) => p.2.map (fun c => (p.1, c))))) }

/-- The `if not host: host = self.host` defaulting in `BaseAgent.bind`. -/
def hostDefault (st : AgentState) (host : Option String) : String :=
  match host with
  | none => st.host
  | some "" => st.host
  | some h => h

/-- `BaseAgent.bind(kind, alias=None, handler=None, host=None, port=None)`:
asserts that a handler is present whenever the kind requires one, creates a
fresh socket of that kind bound to `host:port` (`port` stands for the explicit
port or the ephemeral port the OS picked), registers it under the server
address, and for SUB kinds performs the topic subscription step. -/
def bindOp (st : AgentState) (kind : Kind) (aliasArg : Option String)
    (handler : Option HandlerArg) (host : Option String) (port : Nat) :
    Except PyExc (AgentAddress × AgentState) :=
  if kind.requires_handler && handler.isNone then
    .error (.assertionError "This socket requires a handler!")
  else
    let host := hostDefault st host
    let sock := st.nextSock
    let st1 := { st with
      nextSock := st.nextSock + 1,
      sockets := setk st.sockets sock ⟨kind, false, []⟩ }
    let server_address : AgentAddress := ⟨host, port, kind, .server⟩
    match registerOp st1 sock (.addr server_address) (aliasArg.map .str) handler with
    | .error e => .error e
    | .ok st2 =>
      if kind = .SUB then
        match handler with
        | some h =>
          match subscribeOp st2 (.addr server_address) h with
          | .error e => .error e
          | .ok st3 => .ok (server_address, st3)
        | none => .error (.otherError "unreachable")
      else
        .ok (server_address, st2)

/-- The dictionary key `_connect_old` stores the reused socket under: the alias
as given, or the Python `None` key when no alias was passed (this method does
not default the alias to the address the way `register` does). -/
def connAliasKey : Option String → SockKey
  | none => .pynone
  | some s => .str s

/-- `BaseAgent._connect_old`: asserts that no new handler is given, then maps
the (possibly `None`) alias to the socket already registered for the client
address.  No new socket is created. -/
def connect_old (st : AgentState) (client_address : AgentAddress)
    (aliasArg : Option String) (handler : Option HandlerArg) :
    Except PyExc AgentState :=
  if handler.isSome then
    .error (.assertionError "Undefined behavior when a new handler is given! (TODO)")
  else
    match getk st.socket (.addr client_address) with
    | none => .error (.otherError "KeyError")
    | some sock =>
      .ok { st with
        socket := setk st.socket (connAliasKey aliasArg) sock,
        address := setk st.address (connAliasKey aliasArg) (.addr client_address) }

/-- `BaseAgent._connect_new`: creates a fresh socket of the client kind,
connects it, and registers it under the client address. -/
def connect_new (st : AgentState) (client_address : AgentAddress)
    (aliasArg : Option String) (handler : Option HandlerArg) :
    Except PyExc AgentState :=
  let sock := st.nextSock
  let st1 := { st with
    nextSock := st.nextSock + 1,
    sockets := setk st.sockets sock ⟨client_address.kind, false, []⟩ }
  registerOp st1 sock (.addr client_address) (aliasArg.map .str) handler

/-- `BaseAgent.connect(server_address, alias=None, handler=None)`: asserts the
given address has the server role, computes the twin client address, asserts a
handler is present whenever the client kind requires one, and then reuses the
existing socket for an already-registered client address or opens a new one. -/
def connectOp (st : AgentState) (server_address : AgentAddress)
    (aliasArg : Option String) (handler : Option HandlerArg) :
    Except PyExc AgentState :=
  if server_address.role ≠ .server then
    .error (.assertionError "Incorrect address! A server address must be provided!")
  else
    let client_address := server_address.twin
    if client_address.kind.requires_handler && handler.isNone then
      .error (.assertionError "This socket requires a handler!")
    else if registered st (.addr client_address) then
      connect_old st client_address aliasArg handler
    else
      connect_new st client_address aliasArg handler

/-- Mark one socket as closed (`socket.close()`); closing twice is a no-op. -/
def closeSock (sockets : List (Nat × SockInfo)) (sid : Nat) :
    List (Nat × SockInfo) :=
  sockets.map (fun p =>
    if p.1 = sid then (p.1, ⟨p.2.kind, true, p.2.subs⟩) else p)

/-- One iteration of the `for address in self.socket:` loop of
`close_sockets`: skip the two loopback keys, close any other entry's
socket. -/
def closeStep (acc : List (Nat × SockInfo)) (kv : SockKey × Nat) :
    List (Nat × SockInfo) :=
  if kv.1 = .str "loopback" ∨ kv.1 = .str "inproc://loopback" then acc
  else closeSock acc kv.2

/-- `BaseAgent.close_sockets`: iterates over the keys of `self.socket`, skips
the two loopback keys, and closes every other entry's socket. -/
def close_sockets (st : AgentState) : AgentState :=
  { st with sockets := st.socket.foldl closeStep st.sockets }

/-- Observable side effects of an event-loop iteration: the idle hook, log
lines (identified by their fixed prefix), handler invocations with their
arguments, and replies sent on REP sockets. -/
inductive Trace where
  | iddle
  | logError (msg : String)
  | logInfo (msg : String)
  | call2 (hid : Nat) (message : Bytes)
  | call3 (hid : Nat) (message : Bytes) (topic : Bytes)
  | callRet (hid : Nat) (message : Bytes)
  | sent (sock : Nat) (payload : Bytes)
deriving DecidableEq

/-- `BaseAgent.handle_loopback`: dispatch on the control header.  PING replies
PONG; STOP clears `keep_alive` and replies OK; CLOSE closes the non-loopback
sockets and replies OK; anything else logs an error and returns no reply. -/
def handle_loopback (st : AgentState) (message : String × Option Bytes) :
    AgentState × Option String × List Trace :=
  let header := message.1
  if header = "PING" then
    (st, some "PONG", [])
  else if header = "STOP" then
    ({ st with keep_alive := false }, some "OK", [.logInfo "Stopping..."])
  else if header = "CLOSE" then
    (close_sockets st, some "OK", [.logInfo "Closing sockets..."])
  else
    (st, none, [.logError "Unrecognized message"])

/-- The `(header, data)` request a caller pushes into the loopback channel. -/
structure LoopbackRequest where
  header : String
  data : Option Bytes
deriving DecidableEq

/-- `BaseAgent.loopback(header, data=None)`: raises `NotImplementedError` when
the agent is not running; otherwise connects a REQ socket to the in-process
loopback endpoint and sends the request (the blocking reply round-trip happens
on the event-loop thread and is outside this state model). -/
def loopbackOp (st : AgentState) (header : String) (data : Option Bytes) :
    Except PyExc LoopbackRequest :=
  if !st.running then
    .error .notImplementedError
  else
    .ok ⟨header, data⟩

/-- `BaseAgent.ping`: a PING request over the loopback channel. -/
def pingOp (st : AgentState) : Except PyExc LoopbackRequest :=
  loopbackOp st "PING" none

/-- `BaseAgent.stop` (the later definition in the class body, which shadows the
earlier one): a STOP request over the loopback channel. -/
def stopOp (st : AgentState) : Except PyExc LoopbackRequest :=
  loopbackOp st "STOP" none

/-- `errno.EINTR` on Linux. -/
def EINTR : Nat := 4

/-- `zmq.POLLIN`. -/
def POLLIN : Nat := 1

/-- Outcome of one `self.poller.poll(self.poll_timeout)` call, supplied by the
environment: either the event dict — as an ordered list of (socket id, event
mask, bytes the following `socket.recv()` returns) — or a `ZMQError` with its
errno. -/
inductive PollOutcome where
  | events (evs : List (Nat × Nat × Bytes))
  | zmqErr (errno : Nat)
deriving DecidableEq

/-- The type of `pickle.loads` as seen by the loop: a decoder that either
yields the decoded message (itself modelled as bytes) or raises.  The real
decoder is external to the kernel, so it is a parameter of the loop. -/
abbrev Loads := Bytes → Except PyExc Bytes

/-- Return values of user handlers called as `handler(self, message)`; `none`
models a Python `None` return.  User handler bodies are external code, so
their returns are a parameter of the loop. -/
abbrev Ret := Nat → Bytes → Option Bytes

/-- Index of the first `0x80` byte (`serialized.index(b'\x80')`); `none` when
the byte is absent, in which case the Python call raises `ValueError`. -/
def indexOf80 : Bytes → Option Nat
  | [] => none
  | b :: rest =>
    if b = 128 then some 0 else (indexOf80 rest).map (· + 1)

/-- The `for str_topic in handlers:` loop of the SUB branch of
`BaseAgent.iterate`: each handler whose encoded topic is a prefix of the raw
frame is invoked, with `(agent, message)` when it declares two parameters and
`(agent, message, topic)` when it declares three; other arities are skipped. -/
def subDispatch (message topic serialized : Bytes) :
    List (String × Callback) → List Trace
  | [] => []
  | p :: rest =>
    if (str2bytes p.1).isPrefixOf serialized then
      if p.2.nparams = 2 then
        Trace.call2 p.2.hid message :: subDispatch message topic serialized rest
      else if p.2.nparams = 3 then
        Trace.call3 p.2.hid message topic :: subDispatch message topic serialized rest
      else
        subDispatch message topic serialized rest
    else
      subDispatch message topic serialized rest

/-- The SUB branch of `BaseAgent.iterate` for one received frame: split the
frame at the first `0x80` byte (raising `ValueError` when there is none —
outside any try block), decode the payload inside a try block that catches
only `ValueError` (logging and skipping the message in that case; any other
decode failure propagates), then run the topic dispatch loop.  Iterating a
non-dict handler value raises. -/
def processSub (loads : Loads) (handlers : Handler) (serialized : Bytes) :
    Except PyExc (List Trace) :=
  match indexOf80 serialized with
  | none => .error .valueError
  | some sepp =>
    let topic := serialized.take sepp
    let data := serialized.drop sepp
    match loads data with
    | .error .valueError => .ok [.logError "Could not load pickle stream!"]
    | .error e => .error e
    | .ok message =>
      match handlers with
      | .hdict cs => .ok (subDispatch message topic serialized cs)
      | .hlist [] => .ok []
      | .hlist (_ :: _) => .error (.otherError "AttributeError")
      | .single _ => .error .typeError

/-- The non-SUB handler invocation block of `BaseAgent.iterate`: a bare handler
is wrapped into a one-element list, each handler is called with
`(agent, message)`, and the return value of the last call is retained (`none`
in the second component when the list was empty and `handler_return` was never
assigned).  A dict handler would be wrapped into `[dict]` and raise when
called. -/
def callHandlers (handlers : Handler) (message : Bytes) (ret : Ret) :
    Except PyExc (List Trace × Option (Option Bytes)) :=
  match handlers with
  | .hdict _ => .error .typeError
  | .single c => .ok ([.callRet c.hid message], some (ret c.hid message))
  | .hlist cs =>
    .ok (cs.map (fun c => Trace.callRet c.hid message),
      match cs.getLast? with
      | none => none
      | some c => some (ret c.hid message))

/-- The `for socket in events:` loop of `BaseAgent.iterate`.  `lastRet` threads
the Python local `handler_return` across sockets: it survives from one socket
to the next, and using it unassigned on a REP socket would raise `NameError`. -/
def processEvents (st : AgentState) (loads : Loads) (ret : Ret) :
    List (Nat × Nat × Bytes) → Option (Option Bytes) → Except PyExc (List Trace)
  | [], _ => .ok []
  | (sock, mask, serialized) :: rest, lastRet =>
    if mask ≠ POLLIN then
      processEvents st loads ret rest lastRet
    else
      match getk st.sockets sock with
      | none => .error (.otherError "AttributeError")
      | some info =>
        if info.kind = .SUB then
          match getk st.handler sock with
          | none => .error (.otherError "KeyError")
          | some handlers =>
            match processSub loads handlers serialized with
            | .error e => .error e
            | .ok tr =>
              match processEvents st loads ret rest lastRet with
              | .error e => .error e
              | .ok tr2 => .ok (tr ++ tr2)
        else
          match loads serialized with
          | .error e => .error e
          | .ok message =>
            match getk st.handler sock with
            | none => .error (.otherError "KeyError")
            | some handlers =>
              match callHandlers handlers message ret with
              | .error e => .error e
              | .ok (tr, assigned) =>
                let lastRet2 := match assigned with
                  | none => lastRet
                  | some r => some r
                if info.kind = .REP then
                  match lastRet2 with
                  | none => .error (.otherError "NameError")
                  | some none =>
                    match processEvents st loads ret rest lastRet2 with
                    | .error e => .error e
                    | .ok tr2 => .ok (tr ++ tr2)
                  | some (some r) =>
                    match processEvents st loads ret rest lastRet2 with
                    | .error e => .error e
                    | .ok tr2 => .ok (tr ++ [.sent sock r] ++ tr2)
                else
                  match processEvents st loads ret rest lastRet2 with
                  | .error e => .error e
                  | .ok tr2 => .ok (tr ++ tr2)

/-- `BaseAgent.iterate`: polls (the outcome is an input from the environment);
a `ZMQError` whose errno is not EINTR is re-raised, EINTR makes the iteration
return 1; an empty event dict runs the idle hook and returns 0; otherwise the
events are processed in order and the iteration returns 0. -/
def iterate (st : AgentState) (poll : PollOutcome) (loads : Loads) (ret : Ret) :
    Except PyExc (Nat × List Trace) :=
  match poll with
  | .zmqErr e =>
    if e ≠ EINTR then .error (.zmqError e) else .ok (1, [])
  | .events [] => .ok (0, [.iddle])
  | .events evs =>
    match processEvents st loads ret evs none with
    | .error e => .error e
    | .ok tr => .ok (0, tr)

/-- `BaseAgent.loop`: `while self.keep_alive: if self.iterate(): break`.  The
environment supplies one poll outcome per iteration; the run stops when
`keep_alive` is false, when an iteration returns nonzero (the `break`), when
an iteration raises, or when the supplied schedule of outcomes is exhausted.
Returns the unconsumed outcomes — every outcome still in that list corresponds
to a poll that never happened — together with the traces of the consumed
iterations.  Handlers in this model do not mutate the agent state, so the
state is read-only here. -/
def loopRun (st : AgentState) (polls : List PollOutcome) (loads : Loads)
    (ret : Ret) : Except PyExc (List PollOutcome × List Trace) :=
  if !st.keep_alive then
    .ok (polls, [])
  else
    match polls with
    | [] => .ok ([], [])
    | p :: rest =>
      match iterate st p loads ret with
      | .error e => .error e
      | .ok (r, tr) =>
        if r ≠ 0 then
          .ok (rest, tr)
        else
          match loopRun st rest loads ret with
          | .error e => .error e
          | .ok (rem, tr2) => .ok (rem, tr ++ tr2)

/-- The method names `Proxy._pyroInvoke` always dispatches directly, regardless
of the safe flag: the liveness probe, run, the generic attribute getter, kill,
and the safe-call entry point itself. -/
def alwaysDirect : List String := ["ready", "run", "get_attr", "kill", "safe_call"]

/-- The proxy state relevant to call routing: the current and default safe
flags and the set of remote method names known to the proxy. -/
structure ProxyState where
  safe : Bool
  default_safe : Bool
  pyroMethods : List String
deriving DecidableEq

/-- The remote request actually sent over the wire: a method name and its
positional arguments (argument values are opaque here). -/
structure RemoteCall where
  method : String
  args : List String
deriving DecidableEq

/-- The `methodname.startswith('_')` test: the first character is an
underscore. -/
def startsWithUnderscore (s : String) : Bool :=
  match s.data with
  | [] => false
  | c :: _ => c = '_'

/-- `Proxy._pyroInvoke(methodname, args, kwargs)`: when the safe flag is set,
the method is among the proxy's remote methods, its name is public (no leading
underscore) and it is not one of the always-direct names, the call is rewritten
to `safe_call` with the method name prepended to the arguments; otherwise it is
dispatched directly.  The `finally` block resets the safe flag to its default
either way. -/
def pyroInvoke (p : ProxyState) (methodname : String) (args : List String) :
    RemoteCall × ProxyState :=
  let call :=
    if p.safe && p.pyroMethods.contains methodname
        && !startsWithUnderscore methodname
        && !alwaysDirect.contains methodname then
      RemoteCall.mk "safe_call" (methodname :: args)
    else
      RemoteCall.mk methodname args
  (call, { p with safe := p.default_safe })

/-- Addresses used by the C3 scenario: two distinct server addresses. -/
def fooAddr1 : AgentAddress := ⟨"127.0.0.1", 1000, .PUSH, .server⟩

/-- Second distinct address for the C3 scenario. -/
def fooAddr2 : AgentAddress := ⟨"127.0.0.1", 1001, .PUSH, .server⟩

/-- A PUSH server address whose twin (a PULL client, which requires a
handler) drives the C5 counterexample. -/
def pushSrv : AgentAddress := ⟨"127.0.0.1", 5000, .PUSH, .server⟩

/-- The REP server address used by the C5 witness (its twin REQ client does
not require a handler, so reuse aliasing is reachable). -/
def repSrv : AgentAddress := ⟨"127.0.0.1", 6000, .REP, .server⟩

/-- The state of the C5 witness after a first connection to the REP server. -/
def c5st1 : AgentState :=
  (Except.toOption (connectOp (initAgent "127.0.0.1") repSrv (some "a") none)).getD
    (initAgent "127.0.0.1")

/-- The agent state of the C6 witness: the initial agent plus a SUB socket
(id 1) bound with handlers for the topics "A", "B" and "" (callbacks 1 and 2
with two parameters, callback 3 with three). -/
def c6st : AgentState :=
  ((Except.toOption (bindOp (initAgent "127.0.0.1") .SUB (some "sub")
      (some (.dct [("A", ⟨1, 2⟩), ("B", ⟨2, 2⟩), ("", ⟨3, 3⟩)])) none
      7000)).map Prod.snd).getD (initAgent "127.0.0.1")

/-- The agent state of the C2 scenario: the initial agent plus a SUB socket
(id 1) subscribed to everything with a single two-parameter handler. -/
def c2st : AgentState :=
  { initAgent "127.0.0.1" with
    socket := [(.str "loopback", 0), (.str "inproc://loopback", 0),
               (.str "sub", 1)],
    handler := [(0, .single ⟨0, 2⟩), (1, .hdict [("", ⟨1, 2⟩)])],
    pollIn := [0, 1],
    sockets := [(0, ⟨.REP, false, []⟩), (1, ⟨.SUB, false, [[]]⟩)],
    nextSock := 2 }

/-- The proxy state of the C8 witness: safe mode on, default off, knowing the
remote methods kill and custom. -/
def c8p : ProxyState := ⟨true, false, ["kill", "custom"]⟩

/-- The agent state of the C9 witness: the initial agent plus a PUB socket
(id 1) bound under the alias "pub". -/
def c9st : AgentState :=
  ((Except.toOption (bindOp (initAgent "127.0.0.1") .PUB (some "pub") none
      none 8000)).map Prod.snd).getD (initAgent "127.0.0.1")

theorem getk_setk {α β : Type} [DecidableEq α] (l : List (α × β)) (k j : α)
    (v : β) : getk (setk l k v) j = if j = k then some v else getk l j := by
  induction l with
  | nil =>
    by_cases h : j = k
    · simp [setk, getk, h]
    · have h2 : ¬ k = j := fun hh => h hh.symm
      simp [setk, getk, h, h2]
  | cons p rest ih =>
    by_cases hpk : p.1 = k
    · by_cases hj : j = k
      · subst hj
        simp [setk, getk, hpk]
      · have hkj : ¬ k = j := fun hh => hj hh.symm
        have hpj : ¬ p.1 = j := by rw [hpk]; exact hkj
        simp [setk, getk, hpk, hj, hkj, hpj]
    · by_cases hpj : p.1 = j
      · have hjk : ¬ j = k := by
          intro hh
          exact hpk (hpj.trans hh)
        simp [setk, getk, hpk, hpj, hjk]
      · simp [setk, getk, hpk, hpj, ih]

theorem getk_mem {α β : Type} [DecidableEq α] (l : List (α × β)) (k : α)
    (v : β) (h : getk l k = some v) : (k, v) ∈ l := by
  induction l with
  | nil => simp [getk] at h
  | cons p rest ih =>
    obtain ⟨a, b⟩ := p
    by_cases hpk : a = k
    · simp only [getk, if_pos hpk] at h
      injection h with h
      subst hpk
      subst h
      exact List.mem_cons_self _ _
    · simp only [getk] at h
      rw [if_neg hpk] at h
      exact List.mem_cons_of_mem _ (ih h)

/-- C1 (amended): when a poll is interrupted by EINTR the error is swallowed
but the iteration returns 1, which makes the main loop break: no further poll
outcome is consumed.  Any ZMQError with a different errno propagates out of
the iteration and hence out of the loop. -/
theorem C1_thm (st : AgentState) (polls : List PollOutcome) (loads : Loads)
    (ret : Ret) (errno : Nat) (hka : st.keep_alive = true) :
    (errno = EINTR →
      iterate st (.zmqErr errno) loads ret = .ok (1, []) ∧
      loopRun st (.zmqErr errno :: polls) loads ret = .ok (polls, [])) ∧
    (errno ≠ EINTR →
      iterate st (.zmqErr errno) loads ret = .error (.zmqError errno) ∧
      loopRun st (.zmqErr errno :: polls) loads ret
        = .error (.zmqError errno)) := by
  constructor
  · intro he
    subst he
    constructor
    · simp [iterate]
    · simp [loopRun, hka, iterate]
  · intro hne
    constructor
    · simp [iterate, hne]
    · simp [loopRun, hka, iterate, hne]

/-- C1 (counterexample): with `keep_alive` set and a schedule whose first poll
outcome is an EINTR interruption, the loop run ends with the second scheduled
outcome still unconsumed — the agent does not poll again after the
interruption, contradicting the claim that the loop keeps running and polls
again on the next iteration. -/
theorem C1_cex :
    loopRun (initAgent "127.0.0.1")
      [.zmqErr 4, .events [(0, 1, [128])]]
      (fun _ => .error .valueError) (fun _ _ => none)
    = .ok ([.events [(0, 1, [128])]], []) := by rfl

/-- C1 witness: the amended theorem evaluated at EINTR (4) and at a different
errno (11). -/
theorem C1_wit :
    (iterate (initAgent "127.0.0.1") (.zmqErr 4)
      (fun _ => .error .valueError) (fun _ _ => none) = .ok (1, [])) ∧
    (iterate (initAgent "127.0.0.1") (.zmqErr 11)
      (fun _ => .error .valueError) (fun _ _ => none)
      = .error (.zmqError 11)) :=
  ⟨((C1_thm (initAgent "127.0.0.1") [] (fun _ => .error .valueError)
      (fun _ _ => none) 4 rfl).1 rfl).1,
   ((C1_thm (initAgent "127.0.0.1") [] (fun _ => .error .valueError)
      (fun _ _ => none) 11 rfl).2 (by decide)).1⟩

/-- C3 (amended): `register` fails exactly when the address argument is
already a key of the socket registry (a namespace shared by addresses and
aliases); the alias argument is not checked, so registering a fresh address
under an alias that is already in use succeeds and silently rebinds the
alias.  A successful registration stores the socket under both the address
and the (defaulted) alias. -/
theorem C3_thm (st : AgentState) (sock : Nat) (address : SockKey)
    (aliasArg : Option SockKey) (handler : Option HandlerArg) :
    ((registerOp st sock address aliasArg handler).isOk = false ↔
      registered st address = true) ∧
    (∀ st2, registerOp st sock address aliasArg handler = .ok st2 →
      getk st2.socket address = some sock ∧
      getk st2.socket (aliasDefault address aliasArg) = some sock ∧
      getk st2.address (aliasDefault address aliasArg) = some address) := by
  have hfields : ∀ st2, registerOp st sock address aliasArg handler = .ok st2 →
      st2.socket = setk (setk st.socket (aliasDefault address aliasArg) sock)
          address sock ∧
      st2.address = setk st.address (aliasDefault address aliasArg) address := by
    intro st2 heq
    by_cases hreg : registered st address
    · simp [registerOp, hreg] at heq
    · cases handler with
      | none =>
        simp [registerOp, hreg] at heq
        subst heq
        exact ⟨rfl, rfl⟩
      | some hh =>
        simp [registerOp, hreg, set_handler] at heq
        subst heq
        exact ⟨rfl, rfl⟩
  constructor
  · constructor
    · intro h
      by_contra hreg2
      have hreg : registered st address = false := by
        cases hr : registered st address
        · rfl
        · exact absurd hr hreg2
      cases handler with
      | none => simp [registerOp, hreg, Except.isOk, Except.toBool] at h
      | some hh => simp [registerOp, hreg, Except.isOk, Except.toBool] at h
    · intro hreg
      simp [registerOp, hreg, Except.isOk, Except.toBool]
  · intro st2 heq
    obtain ⟨hs, ha⟩ := hfields st2 heq
    refine ⟨?_, ?_, ?_⟩
    · rw [hs, getk_setk]
      simp
    · rw [hs, getk_setk]
      by_cases hak : aliasDefault address aliasArg = address
      · simp [hak]
      · simp [hak, getk_setk]
    · rw [ha, getk_setk]
      simp

/-- C3 (counterexample): registering socket 1 under alias "foo" and then
registering socket 2, at a different address, under the same alias "foo" does
not fail — contradicting the claim that a duplicate alias is a fatal
duplicate-registration error — and the alias is silently rebound to socket 2
while the first socket stays reachable only through its address. -/
theorem C3_cex :
    (Except.bind
        (registerOp (initAgent "127.0.0.1") 1 (.addr fooAddr1)
          (some (.str "foo")) none)
        (fun st1 => registerOp st1 2 (.addr fooAddr2) (some (.str "foo")) none)).isOk
      = true ∧
    (getk ((Except.toOption (Except.bind
        (registerOp (initAgent "127.0.0.1") 1 (.addr fooAddr1)
          (some (.str "foo")) none)
        (fun st1 => registerOp st1 2 (.addr fooAddr2)
          (some (.str "foo")) none))).getD (initAgent "127.0.0.1")).socket
      (.str "foo") = some 2) ∧
    (getk ((Except.toOption (Except.bind
        (registerOp (initAgent "127.0.0.1") 1 (.addr fooAddr1)
          (some (.str "foo")) none)
        (fun st1 => registerOp st1 2 (.addr fooAddr2)
          (some (.str "foo")) none))).getD (initAgent "127.0.0.1")).socket
      (.addr fooAddr1) = some 1) := by
  refine ⟨?_, ?_, ?_⟩
  · decide
  · decide
  · decide

/-- C3 witness: the amended theorem applied to a concrete successful
registration. -/
theorem C3_wit :
    getk ((Except.toOption (registerOp (initAgent "127.0.0.1") 1
        (.addr fooAddr1) (some (.str "foo")) none)).getD
        (initAgent "127.0.0.1")).socket (.addr fooAddr1) = some 1 :=
  ((C3_thm (initAgent "127.0.0.1") 1 (.addr fooAddr1) (some (.str "foo"))
    none).2 _ (by rfl)).1

/-- C4 (amended): the kinds whose `requires_handler` flag is set are reply,
pull, and subscribe — not request.  Binding one of those kinds without a
handler fails with the handler-required assertion at bind time; binding any
other kind (request, push, publish) without a handler succeeds. -/
theorem C4_thm (st : AgentState) (kind : Kind) (aliasArg : Option String)
    (host : Option String) (port : Nat) :
    (kind.requires_handler = true ↔
      (kind = .REP ∨ kind = .PULL ∨ kind = .SUB)) ∧
    (kind.requires_handler = true →
      bindOp st kind aliasArg none host port
        = .error (.assertionError "This socket requires a handler!")) ∧
    (kind.requires_handler = false →
      registered st (.addr ⟨hostDefault st host, port, kind, .server⟩) = false →
      (bindOp st kind aliasArg none host port).isOk = true) := by
  refine ⟨?_, ?_, ?_⟩
  · cases kind <;> simp [Kind.requires_handler]
  · intro hreq
    simp [bindOp, hreq]
  · intro hreq hfree
    have hsub : ¬ kind = .SUB := by
      intro h
      subst h
      simp [Kind.requires_handler] at hreq
    have hfree2 : registered
        { st with nextSock := st.nextSock + 1,
                  sockets := setk st.sockets st.nextSock ⟨kind, false, []⟩ }
        (.addr ⟨hostDefault st host, port, kind, .server⟩) = false := hfree
    simp [bindOp, hreq, registerOp, hfree2, hsub, Except.isOk, Except.toBool]

/-- C4 (counterexample): binding a request (REQ) socket with no handler
succeeds, contradicting the claim — taken from the spec — that a request
socket bound without a handler fails with a handler-required error at bind
time.  This matches the repository's own `test_kind`, which asserts that
`requires_handler()` is False for REQ. -/
theorem C4_cex :
    (bindOp (initAgent "127.0.0.1") .REQ (some "request") none none 2000).isOk
      = true := by decide

/-- C4 witness: the amended theorem applied to a REP bind without a handler
(fails) and a PUSH bind without a handler (succeeds). -/
theorem C4_wit :
    (bindOp (initAgent "127.0.0.1") .REP none none none 3000
      = .error (.assertionError "This socket requires a handler!")) ∧
    (bindOp (initAgent "127.0.0.1") .PUSH none none none 3001).isOk = true :=
  ⟨(C4_thm (initAgent "127.0.0.1") .REP none none 3000).2.1 rfl,
   (C4_thm (initAgent "127.0.0.1") .PUSH none none 3001).2.2 rfl (by decide)⟩

/-- C5 (amended): when `connect` is called with a server address whose twin
client address is already registered, no new socket is ever created, and:
passing a handler is the ambiguous-handler assertion error; passing no
handler succeeds with the alias mapped to the already-registered socket only
when the twin kind does not require a handler — when it does (pull, reply,
subscribe clients), the handler-required assertion fires first and the call
fails instead of aliasing. -/
theorem C5_thm (st : AgentState) (sa : AgentAddress) (aliasArg : Option String)
    (handler : Option HandlerArg)
    (hrole : sa.role = .server)
    (hreg : registered st (.addr sa.twin) = true) :
    (handler.isSome = true →
      connectOp st sa aliasArg handler
        = .error (.assertionError
            "Undefined behavior when a new handler is given! (TODO)")) ∧
    (sa.twin.kind.requires_handler = true → handler = none →
      connectOp st sa aliasArg handler
        = .error (.assertionError "This socket requires a handler!")) ∧
    (sa.twin.kind.requires_handler = false → handler = none →
      ∀ sid, getk st.socket (.addr sa.twin) = some sid →
        connectOp st sa aliasArg handler
          = .ok { st with
              socket := setk st.socket (connAliasKey aliasArg) sid,
              address := setk st.address (connAliasKey aliasArg)
                (.addr sa.twin) }) := by
  have hrole2 : ¬ sa.role ≠ Role.server := by
    simp [hrole]
  refine ⟨?_, ?_, ?_⟩
  · intro hsome
    have hnone : handler.isNone = false := by
      cases handler
      · simp [Option.isSome] at hsome
      · rfl
    simp [connectOp, hrole2, hnone, hreg, connect_old, hsome]
  · intro hreq hnone
    subst hnone
    simp [connectOp, hrole2, hreq]
  · intro hreq hnone sid hsid
    subst hnone
    simp [connectOp, hrole2, hreq, hreg, connect_old, hsid]

/-- C5 (counterexample): after connecting once to a PUSH server (with the
required handler), a second `connect` to the same server with no handler
fails with the handler-required assertion — the alias is not mapped to the
existing socket, contradicting the claim that in the reuse case the alias is
always mapped to the already-existing socket when no handler is passed. -/
theorem C5_cex :
    Except.bind
      (connectOp (initAgent "127.0.0.1") pushSrv (some "a") (some (.fn ⟨1, 2⟩)))
      (fun st1 => connectOp st1 pushSrv (some "b") none)
    = .error (.assertionError "This socket requires a handler!") := by rfl

/-- C5 witness: the amended theorem applied to a concrete reuse without a
handler (aliased to the existing socket) and a concrete reuse with a handler
(ambiguous-handler error). -/
theorem C5_wit :
    (connectOp c5st1 repSrv (some "b") none
      = .ok { c5st1 with
          socket := setk c5st1.socket (connAliasKey (some "b")) 1,
          address := setk c5st1.address (connAliasKey (some "b"))
            (.addr repSrv.twin) }) ∧
    (connectOp c5st1 repSrv (some "c") (some (.fn ⟨2, 2⟩))
      = .error (.assertionError
          "Undefined behavior when a new handler is given! (TODO)")) :=
  ⟨(C5_thm c5st1 repSrv (some "b") none (by decide) (by decide)).2.2
      (by decide) rfl 1 (by decide),
   (C5_thm c5st1 repSrv (some "c") (some (.fn ⟨2, 2⟩)) (by decide)
      (by decide)).1 rfl⟩

theorem subDispatch_filterMap (message topic serialized : Bytes)
    (cs : List (String × Callback))
    (h : ∀ p ∈ cs, p.2.nparams = 2 ∨ p.2.nparams = 3) :
    subDispatch message topic serialized cs
      = cs.filterMap (fun p =>
          if (str2bytes p.1).isPrefixOf serialized then
            (if p.2.nparams = 2 then some (Trace.call2 p.2.hid message)
             else some (Trace.call3 p.2.hid message topic))
          else none) := by
  induction cs with
  | nil => rfl
  | cons p rest ih =>
    have hrest : ∀ q ∈ rest, q.2.nparams = 2 ∨ q.2.nparams = 3 :=
      fun q hq => h q (List.mem_cons_of_mem _ hq)
    have hp := h p (List.mem_cons_self _ _)
    by_cases hpre : (str2bytes p.1).isPrefixOf serialized = true
    · have hpre2 : str2bytes p.1 <+: serialized :=
        List.isPrefixOf_iff_prefix.mp hpre
      rcases hp with h2 | h3
      · simp [subDispatch, hpre, hpre2, h2, List.filterMap_cons, ih hrest]
      · have h2 : ¬ p.2.nparams = 2 := by rw [h3]; decide
        simp [subDispatch, hpre, hpre2, h2, h3, List.filterMap_cons, ih hrest]
    · have hpre2 : ¬ str2bytes p.1 <+: serialized := fun hh =>
        hpre (List.isPrefixOf_iff_prefix.mpr hh)
      simp [subDispatch, hpre, hpre2, List.filterMap_cons, ih hrest]

/-- C6 (confirmed): for a frame arriving on a subscribe socket (whose payload
splits at the first `0x80` byte and decodes), the event loop invokes exactly
the handlers whose encoded subscribed topic is a prefix of the raw wire frame,
in registration order: a two-parameter handler is called with
`(agent, message)` and a three-parameter handler with
`(agent, message, topic)`, where the topic is the frame part before the
payload.  Since the empty topic encodes to the empty byte string, it matches
every frame; topic "A" matches a frame published under "A/x" and does not
match one published under "B". -/
theorem C6_thm (st : AgentState) (sid : Nat) (info : SockInfo)
    (cs : List (String × Callback)) (serialized message : Bytes) (sepp : Nat)
    (loads : Loads) (ret : Ret)
    (hkind : getk st.sockets sid = some info) (hsub : info.kind = .SUB)
    (hhand : getk st.handler sid = some (.hdict cs))
    (hsep : indexOf80 serialized = some sepp)
    (hloads : loads (serialized.drop sepp) = .ok message)
    (harity : ∀ p ∈ cs, p.2.nparams = 2 ∨ p.2.nparams = 3) :
    iterate st (.events [(sid, POLLIN, serialized)]) loads ret
      = .ok (0, cs.filterMap (fun p =>
          if (str2bytes p.1).isPrefixOf serialized then
            (if p.2.nparams = 2 then some (Trace.call2 p.2.hid message)
             else some (Trace.call3 p.2.hid message (serialized.take sepp)))
          else none)) := by
  simp [iterate, processEvents, hkind, hsub, hhand, processSub, hsep, hloads,
    subDispatch_filterMap message (serialized.take sepp) serialized cs harity]

/-- C6 witness: the dispatch theorem evaluated on a frame whose wire topic is
"A/x": the subscriber to "A" is invoked (prefix match), the subscriber to "B"
is not, and the empty-topic three-parameter subscriber is invoked with the
wire topic as the extra argument. -/
theorem C6_wit :
    iterate c6st (.events [(1, POLLIN, [65, 47, 120, 128, 7])])
      (fun b => .ok b) (fun _ _ => none)
      = .ok (0, [Trace.call2 1 [128, 7],
                 Trace.call3 3 [128, 7] [65, 47, 120]]) :=
  (C6_thm c6st 1 ⟨.SUB, false, [[65], [66], []]⟩
    [("A", ⟨1, 2⟩), ("B", ⟨2, 2⟩), ("", ⟨3, 3⟩)]
    [65, 47, 120, 128, 7] [128, 7] 3 (fun b => .ok b) (fun _ _ => none)
    (by decide) rfl (by decide) (by decide) rfl (by decide)).trans (by rfl)

/-- C2 (amended): a subscribe-socket frame whose payload fails to decode with
a `ValueError` is logged and dropped and the loop goes on: a well-formed
frame received on the same socket on the next iteration is still delivered
to the matching handlers.  This recovery is specific to `ValueError` — a
decode failure of any other exception class is not caught and propagates out
of the loop (see the counterexample). -/
theorem C2_thm (st : AgentState) (sid : Nat) (info : SockInfo)
    (cs : List (String × Callback)) (bad good msgG : Bytes) (sb sg : Nat)
    (loads : Loads) (ret : Ret)
    (hka : st.keep_alive = true)
    (hkind : getk st.sockets sid = some info) (hsub : info.kind = .SUB)
    (hhand : getk st.handler sid = some (.hdict cs))
    (hsb : indexOf80 bad = some sb)
    (hbad : loads (bad.drop sb) = .error .valueError)
    (hsg : indexOf80 good = some sg)
    (hgood : loads (good.drop sg) = .ok msgG)
    (harity : ∀ p ∈ cs, p.2.nparams = 2 ∨ p.2.nparams = 3) :
    loopRun st [.events [(sid, POLLIN, bad)], .events [(sid, POLLIN, good)]]
      loads ret
      = .ok ([], Trace.logError "Could not load pickle stream!" ::
          cs.filterMap (fun p =>
            if (str2bytes p.1).isPrefixOf good then
              (if p.2.nparams = 2 then some (Trace.call2 p.2.hid msgG)
               else some (Trace.call3 p.2.hid msgG (good.take sg)))
            else none)) := by
  simp [loopRun, hka, iterate, processEvents, hkind, hsub, hhand, processSub,
    hsb, hbad, hsg, hgood,
    subDispatch_filterMap msgG (good.take sg) good cs harity]

/-- C2 (counterexample): the loop catches only `ValueError` around the
payload decode, so a frame whose decode fails with any other exception class
(here the decoder raises an UnpicklingError-style error) propagates out of
the event loop instead of being logged and dropped — contradicting the claim
that a payload decode failure never lets an exception out of the loop. -/
theorem C2_cex :
    loopRun c2st [.events [(1, POLLIN, [65, 128, 9])]]
      (fun _ => .error (.otherError "UnpicklingError")) (fun _ _ => none)
      = .error (.otherError "UnpicklingError") := by rfl

/-- C2 witness: the amended theorem evaluated on a concrete decoder that
raises `ValueError` on the first frame's payload and succeeds on the second:
the bad frame is logged and dropped and the following frame is delivered. -/
theorem C2_wit :
    loopRun c2st
      [.events [(1, POLLIN, [66, 128, 9])], .events [(1, POLLIN, [128, 10])]]
      (fun b => if b = [128, 9] then .error .valueError else .ok b)
      (fun _ _ => none)
      = .ok ([], [Trace.logError "Could not load pickle stream!",
                  Trace.call2 1 [128, 10]]) :=
  (C2_thm c2st 1 ⟨.SUB, false, [[]]⟩ [("", ⟨1, 2⟩)]
    [66, 128, 9] [128, 10] [128, 10] 1 0
    (fun b => if b = [128, 9] then .error .valueError else .ok b)
    (fun _ _ => none)
    rfl (by decide) rfl (by decide) (by decide) rfl (by decide) rfl
    (by decide)).trans (by rfl)

/-- C7 (confirmed): the loopback handler replies PONG to PING, clears
`keep_alive` and replies OK on STOP, closes the non-loopback sockets and
replies OK on CLOSE, and on any other header logs an error, leaves the state
unchanged and produces no reply value (the function is total, so no crash). -/
theorem C7_thm (st : AgentState) (header : String) (data : Option Bytes) :
    (header = "PING" →
      handle_loopback st (header, data) = (st, some "PONG", [])) ∧
    (header = "STOP" →
      handle_loopback st (header, data)
        = ({ st with keep_alive := false }, some "OK",
           [Trace.logInfo "Stopping..."])) ∧
    (header = "CLOSE" →
      handle_loopback st (header, data)
        = (close_sockets st, some "OK",
           [Trace.logInfo "Closing sockets..."])) ∧
    (header ≠ "PING" → header ≠ "STOP" → header ≠ "CLOSE" →
      handle_loopback st (header, data)
        = (st, none, [Trace.logError "Unrecognized message"])) := by
  refine ⟨?_, ?_, ?_, ?_⟩
  · intro h
    subst h
    rfl
  · intro h
    subst h
    rfl
  · intro h
    subst h
    rfl
  · intro h1 h2 h3
    simp [handle_loopback, h1, h2, h3]

/-- C7 witness: the loopback handler evaluated on the three control headers
and on an unrecognized one. -/
theorem C7_wit :
    (handle_loopback (initAgent "127.0.0.1") ("PING", none)
      = (initAgent "127.0.0.1", some "PONG", [])) ∧
    (handle_loopback (initAgent "127.0.0.1") ("STOP", none)
      = ({ initAgent "127.0.0.1" with keep_alive := false }, some "OK",
         [Trace.logInfo "Stopping..."])) ∧
    (handle_loopback (initAgent "127.0.0.1") ("FOO", none)
      = (initAgent "127.0.0.1", none,
         [Trace.logError "Unrecognized message"])) :=
  ⟨(C7_thm (initAgent "127.0.0.1") "PING" none).1 rfl,
   (C7_thm (initAgent "127.0.0.1") "STOP" none).2.1 rfl,
   (C7_thm (initAgent "127.0.0.1") "FOO" none).2.2.2 (by decide) (by decide)
     (by decide)⟩

/-- C8 (confirmed): a proxy invocation of one of the always-direct control
methods (ready, run, get_attr, kill, safe_call) is dispatched directly
whatever the safe flag says, while any other public remote method invoked
with the safe flag set is rewritten into a `safe_call` invocation carrying
the method name; the safe flag is reset to its default in both cases. -/
theorem C8_thm (p : ProxyState) (m : String) (args : List String) :
    (m ∈ alwaysDirect →
      pyroInvoke p m args
        = (⟨m, args⟩, { p with safe := p.default_safe })) ∧
    (p.safe = true → m ∈ p.pyroMethods → startsWithUnderscore m = false →
      m ∉ alwaysDirect →
      pyroInvoke p m args
        = (⟨"safe_call", m :: args⟩, { p with safe := p.default_safe })) := by
  constructor
  · intro hm
    have hc : alwaysDirect.contains m = true := by
      simpa using hm
    simp [pyroInvoke, hc]
    intro _ _ _
    exact hm
  · intro hsafe hmem hpub hnot
    have hc : alwaysDirect.contains m = false := by
      simpa using hnot
    have hm2 : p.pyroMethods.contains m = true := by
      simpa using hmem
    simp [pyroInvoke, hsafe, hc, hm2, hpub]
    exact ⟨hmem, hnot⟩

/-- C8 witness: with the safe flag set, `kill` is still dispatched directly
while the ordinary public method `custom` is rerouted through `safe_call`. -/
theorem C8_wit :
    (pyroInvoke c8p "kill" ["x"]
      = (⟨"kill", ["x"]⟩, { c8p with safe := false })) ∧
    (pyroInvoke c8p "custom" ["x"]
      = (⟨"safe_call", ["custom", "x"]⟩, { c8p with safe := false })) :=
  ⟨(C8_thm c8p "kill" ["x"]).1 (by decide),
   (C8_thm c8p "custom" ["x"]).2 rfl (by decide) (by decide) (by decide)⟩

/-- C10 (confirmed): when the agent's `running` flag is false, the loopback
safe-call operation — and with it `ping` and `stop`, which are built on it —
raises `NotImplementedError` instead of sending the control request; when the
loop is running the request goes out. -/
theorem C10_thm (st : AgentState) (header : String) (data : Option Bytes) :
    (st.running = false →
      loopbackOp st header data = .error .notImplementedError ∧
      pingOp st = .error .notImplementedError ∧
      stopOp st = .error .notImplementedError) ∧
    (st.running = true →
      loopbackOp st header data = .ok ⟨header, data⟩) := by
  constructor
  · intro h
    refine ⟨?_, ?_, ?_⟩ <;> simp [loopbackOp, pingOp, stopOp, h]
  · intro h
    simp [loopbackOp, h]

theorem getk_closeSock (S : List (Nat × SockInfo)) (sid j : Nat) :
    getk (closeSock S sid) j
      = if j = sid then
          (getk S j).map (fun i => ⟨i.kind, true, i.subs⟩)
        else getk S j := by
  induction S with
  | nil => by_cases h : j = sid <;> simp [closeSock, getk, h]
  | cons p rest ih =>
    by_cases hp : p.1 = sid <;> by_cases hpj : p.1 = j <;>
      by_cases hj : j = sid <;>
      simp_all [closeSock, getk]

theorem foldl_closeStep_untouched :
    ∀ (l : List (SockKey × Nat)) (acc : List (Nat × SockInfo)) (lbid : Nat),
      (∀ kv ∈ l, kv.1 ≠ .str "loopback" → kv.1 ≠ .str "inproc://loopback" →
        kv.2 ≠ lbid) →
      getk (l.foldl closeStep acc) lbid = getk acc lbid := by
  intro l
  induction l with
  | nil =>
    intro acc lbid _
    rfl
  | cons kv rest ih =>
    intro acc lbid h
    have hrest : ∀ q ∈ rest, q.1 ≠ SockKey.str "loopback" →
        q.1 ≠ SockKey.str "inproc://loopback" → q.2 ≠ lbid :=
      fun q hq => h q (List.mem_cons_of_mem _ hq)
    rw [List.foldl_cons]
    by_cases hk : kv.1 = SockKey.str "loopback" ∨
        kv.1 = SockKey.str "inproc://loopback"
    · have hstep : closeStep acc kv = acc := by
        unfold closeStep
        rw [if_pos hk]
      rw [hstep]
      exact ih acc lbid hrest
    · have h1 : kv.1 ≠ SockKey.str "loopback" := fun hh => hk (Or.inl hh)
      have h2 : kv.1 ≠ SockKey.str "inproc://loopback" := fun hh =>
        hk (Or.inr hh)
      have hne : kv.2 ≠ lbid := h kv (List.mem_cons_self _ _) h1 h2
      have hstep : closeStep acc kv = closeSock acc kv.2 := by
        unfold closeStep
        rw [if_neg hk]
      rw [hstep, ih _ lbid hrest, getk_closeSock,
        if_neg (fun hh => hne hh.symm)]

theorem foldl_closeStep_keeps_closed :
    ∀ (l : List (SockKey × Nat)) (acc : List (Nat × SockInfo)) (sid : Nat)
      (i : SockInfo), getk acc sid = some i → i.closed = true →
      getk (l.foldl closeStep acc) sid = some i := by
  intro l
  induction l with
  | nil =>
    intro acc sid i hacc _
    exact hacc
  | cons kv rest ih =>
    intro acc sid i hacc hcl
    rw [List.foldl_cons]
    by_cases hk : kv.1 = SockKey.str "loopback" ∨
        kv.1 = SockKey.str "inproc://loopback"
    · have hstep : closeStep acc kv = acc := by
        unfold closeStep
        rw [if_pos hk]
      rw [hstep]
      exact ih acc sid i hacc hcl
    · have hstep : closeStep acc kv = closeSock acc kv.2 := by
        unfold closeStep
        rw [if_neg hk]
      rw [hstep]
      refine ih _ sid i ?_ hcl
      rw [getk_closeSock]
      by_cases hs : sid = kv.2
      · rw [if_pos hs, hacc]
        obtain ⟨a, b, c⟩ := i
        have hb : b = true := hcl
        subst hb
        rfl
      · rw [if_neg hs]
        exact hacc

theorem foldl_closeStep_closes :
    ∀ (l : List (SockKey × Nat)) (acc : List (Nat × SockInfo)) (sid : Nat)
      (i : SockInfo),
      (∃ kv, kv ∈ l ∧ (kv.1 ≠ SockKey.str "loopback" ∧
        kv.1 ≠ SockKey.str "inproc://loopback") ∧ kv.2 = sid) →
      getk acc sid = some i →
      getk (l.foldl closeStep acc) sid = some ⟨i.kind, true, i.subs⟩ := by
  intro l
  induction l with
  | nil =>
    intro acc sid i hmem _
    rcases hmem with ⟨kv, hkv, _, _⟩
    simp at hkv
  | cons kv0 rest ih =>
    intro acc sid i hmem hacc
    rw [List.foldl_cons]
    rcases hmem with ⟨kv, hkv, hcond, hsid⟩
    rcases List.mem_cons.mp hkv with heq | htail
    · subst heq
      have hk : ¬ (kv.1 = SockKey.str "loopback" ∨
          kv.1 = SockKey.str "inproc://loopback") := by
        rintro (h | h)
        · exact hcond.1 h
        · exact hcond.2 h
      have hstep : closeStep acc kv = closeSock acc kv.2 := by
        unfold closeStep
        rw [if_neg hk]
      rw [hstep]
      have hacc2 : getk (closeSock acc kv.2) sid
          = some ⟨i.kind, true, i.subs⟩ := by
        rw [getk_closeSock, if_pos hsid.symm, hacc]
        rfl
      exact foldl_closeStep_keeps_closed rest _ sid _ hacc2 rfl
    · by_cases hk : kv0.1 = SockKey.str "loopback" ∨
          kv0.1 = SockKey.str "inproc://loopback"
      · have hstep : closeStep acc kv0 = acc := by
          unfold closeStep
          rw [if_pos hk]
        rw [hstep]
        exact ih acc sid i ⟨kv, htail, hcond, hsid⟩ hacc
      · have hstep : closeStep acc kv0 = closeSock acc kv0.2 := by
          unfold closeStep
          rw [if_neg hk]
        rw [hstep]
        by_cases hs : sid = kv0.2
        · have hacc2 : getk (closeSock acc kv0.2) sid
              = some ⟨i.kind, true, i.subs⟩ := by
            rw [getk_closeSock, if_pos hs, hacc]
            rfl
          exact ih (closeSock acc kv0.2) sid ⟨i.kind, true, i.subs⟩
            ⟨kv, htail, hcond, hsid⟩ hacc2
        · have hacc2 : getk (closeSock acc kv0.2) sid = some i := by
            rw [getk_closeSock, if_neg hs]
            exact hacc
          exact ih _ sid i ⟨kv, htail, hcond, hsid⟩ hacc2

/-- C9 (confirmed): `close_sockets` closes every socket reachable from a
registry key other than the two loopback keys, leaves the loopback socket's
entry untouched (in any state where the loopback socket is registered only
under its two loopback keys), and modifies nothing else: the socket registry,
the address map and the handler map are unchanged. -/
theorem C9_thm (st : AgentState) (lbid : Nat)
    (honly : ∀ kv ∈ st.socket, kv.2 = lbid →
      kv.1 = SockKey.str "loopback" ∨ kv.1 = SockKey.str "inproc://loopback") :
    (close_sockets st).socket = st.socket ∧
    (close_sockets st).address = st.address ∧
    (close_sockets st).handler = st.handler ∧
    getk (close_sockets st).sockets lbid = getk st.sockets lbid ∧
    (∀ k sid i, getk st.socket k = some sid →
      k ≠ SockKey.str "loopback" → k ≠ SockKey.str "inproc://loopback" →
      getk st.sockets sid = some i →
      getk (close_sockets st).sockets sid = some ⟨i.kind, true, i.subs⟩) := by
  refine ⟨rfl, rfl, rfl, ?_, ?_⟩
  · exact foldl_closeStep_untouched st.socket st.sockets lbid
      (fun kv hkv h1 h2 heq => by
        rcases honly kv hkv heq with h | h
        · exact h1 h
        · exact h2 h)
  · intro k sid i hk h1 h2 hi
    exact foldl_closeStep_closes st.socket st.sockets sid i
      ⟨(k, sid), getk_mem _ _ _ hk, ⟨h1, h2⟩, rfl⟩ hi

/-- C9 witness: closing all sockets on the witness state closes the PUB
socket and leaves the loopback socket's entry exactly as it was. -/
theorem C9_wit :
    (getk (close_sockets c9st).sockets 1 = some ⟨.PUB, true, []⟩) ∧
    (getk (close_sockets c9st).sockets 0 = getk c9st.sockets 0) :=
  ⟨(C9_thm c9st 0 (by decide)).2.2.2.2 (.str "pub") 1 ⟨.PUB, false, []⟩
      (by decide) (by decide) (by decide) (by decide),
   (C9_thm c9st 0 (by decide)).2.2.2.1⟩

/-- C10 witness: the freshly initialized agent is not running, so the
loopback call raises; with the running flag set it sends the request. -/
theorem C10_wit :
    (loopbackOp (initAgent "127.0.0.1") "PING" none
      = .error .notImplementedError) ∧
    (pingOp (initAgent "127.0.0.1") = .error .notImplementedError) ∧
    (loopbackOp { initAgent "127.0.0.1" with running := true } "PING" none
      = .ok ⟨"PING", none⟩) :=
  ⟨((C10_thm (initAgent "127.0.0.1") "PING" none).1 rfl).1,
   ((C10_thm (initAgent "127.0.0.1") "PING" none).1 rfl).2.1,
   (C10_thm { initAgent "127.0.0.1" with running := true } "PING" none).2 rfl⟩

end OsBrain
